import Mathlib

/-!
Fast-mode toggle (`public/script.js`)

A shallow embedding of the seventeen lines of `public/script.js`:

```
let fastMode = true;

function enableFastMode() {
    fastMode = !fastMode;
    const btn = document.getElementById("fastModeBtn");
    if (fastMode) { btn.innerHTML = ...; btn.style.background = ...;
                    btn.style.borderColor = ...; showMessage(..., "success"); }
    else          { btn.innerHTML = ...; btn.style.background = "";
                    btn.style.borderColor = ""; showMessage(..., "info"); }
}
```

The host page is an explicit state: the module variable `fastMode`, the
document (a list of elements in tree order) and the notifications handed to
`showMessage` so far.  A statement maps a page to a completion: the page it
leaves behind and the error it threw, if any.  State written before a throw
stays written, as in JavaScript.
-/

namespace FastMode

/-! ## Data model -/

/-- The two inline style properties the script writes. -/
structure Style where
  background : String
  borderColor : String
deriving DecidableEq

/-- A document element: its `id`, its `innerHTML` and its inline style. -/
structure Element where
  id : String
  innerHTML : String
  style : Style
deriving DecidableEq

/-- The document: its elements in tree order. -/
abbrev Document := List Element

/-- The two arguments of one `showMessage(message, type)` call. -/
structure NotificationEvent where
  message : String
  severity : String
deriving DecidableEq

/-- The one error the script can throw: the `TypeError` of reaching for
`property` on `null` (the specification calls it LookupError). -/
inductive JsError where
  | nullDereference (property : String)
deriving DecidableEq

/-- The state of the loaded page. -/
structure Page where
  fastMode : Bool
  document : Document
  notifications : List NotificationEvent
deriving DecidableEq

/-- What a statement leaves behind: the error thrown (if any) and the page. -/
structure Completion where
  error : Option JsError
  page : Page
deriving DecidableEq

/-- Sequencing `c; stmt`: the next statement runs only if nothing was thrown. -/
def Completion.andThen (c : Completion) (stmt : Page → Completion) : Completion :=
  match c.error with
  | none => stmt c.page
  | some _ => c

/-! ## Host primitives -/

/-- The handle `document.getElementById(id)`: the position of the first element
in tree order carrying `id`, or `none` (JavaScript `null`) if there is none. -/
def getElementById : Document → String → Option Nat
  | [], _ => none
  | e :: es, id => if e.id = id then some 0 else (getElementById es id).map (· + 1)

/-- A property write through a handle: throws on `null`, otherwise mutates the
referenced element in place. -/
def writeProperty (btn : Option Nat) (property : String) (write : Element → Element)
    (s : Page) : Completion :=
  match btn with
  | none => ⟨some (.nullDereference property), s⟩
  | some i => ⟨none, { s with document := s.document.modify write i }⟩

/-- The statement `btn.innerHTML = html`. -/
def setInnerHTML (btn : Option Nat) (html : String) : Page → Completion :=
  writeProperty btn "innerHTML" (fun e => { e with innerHTML := html })

/-- The statement `btn.style.background = value`. -/
def setBackground (btn : Option Nat) (value : String) : Page → Completion :=
  writeProperty btn "style" (fun e => { e with style := { e.style with background := value } })

/-- The statement `btn.style.borderColor = value`. -/
def setBorderColor (btn : Option Nat) (value : String) : Page → Completion :=
  writeProperty btn "style" (fun e => { e with style := { e.style with borderColor := value } })

/-- Modelled from the spec: `showMessage` is defined outside `public/script.js`.
The notification boundary is "an externally supplied function accepting
(message, severity)" that is "assumed always-available": the call hands one
notification event to the host and never throws. -/
def showMessage (message severity : String) (s : Page) : Completion :=
  ⟨none, { s with notifications := s.notifications ++ [⟨message, severity⟩] }⟩

/-! ## The script -/

/-- The label written in the ON branch (script.js line 7). -/
def labelOn : String := "<i class=\"fas fa-bolt\"></i> Modo Rápido (ON)"

/-- The label written in the OFF branch (script.js line 12). -/
def labelOff : String := "<i class=\"fas fa-bolt\"></i> Modo Rápido (OFF)"

/-- The message shown in the ON branch (script.js line 10). -/
def messageOn : String := "✅ Modo Rápido: Usando formatos otimizados para Vercel"

/-- The message shown in the OFF branch (script.js line 15). -/
def messageOff : String := "ℹ️ Modo Normal: Pode ser mais lento na Vercel"

/-- The page right after the script has loaded: `let fastMode = true;`, nothing
shown yet. -/
def initial (doc : Document) : Page :=
  { fastMode := true, document := doc, notifications := [] }

/-- The function `enableFastMode()` of script.js, statement by statement. -/
def enableFastMode (s : Page) : Completion :=
  let s₁ : Page := { s with fastMode := !s.fastMode }
  let btn := getElementById s₁.document "fastModeBtn"
  if s₁.fastMode then
    (((setInnerHTML btn labelOn s₁).andThen
      (setBackground btn "rgba(46, 204, 113, 0.2)")).andThen
      (setBorderColor btn "#2ecc71")).andThen
      (showMessage messageOn "success")
  else
    (((setInnerHTML btn labelOff s₁).andThen
      (setBackground btn "")).andThen
      (setBorderColor btn "")).andThen
      (showMessage messageOff "info")

/-- The page after `n` consecutive calls of `enableFastMode` (a throwing call
ends, and the next click starts from the page it left). -/
def calls : Nat → Page → Page
  | 0, s => s
  | n + 1, s => (enableFastMode (calls n s)).page

/-- The element the identifier `fastModeBtn` resolves to, if any. -/
def fastModeBtn (s : Page) : Option Element :=
  (getElementById s.document "fastModeBtn").bind (fun i => s.document[i]?)

/-- The button can be resolved: the lookup does not yield `null`. -/
def Resolvable (s : Page) : Prop :=
  getElementById s.document "fastModeBtn" ≠ none

instance (s : Page) : Decidable (Resolvable s) := by
  unfold Resolvable; infer_instance

/-- The button shows the flag: the ON label with the green background and border
when `fastMode` is true, the OFF label with both overrides empty otherwise. -/
def Consistent (s : Page) : Prop :=
  ∃ e, fastModeBtn s = some e ∧
    if s.fastMode then
      e.innerHTML = labelOn ∧ e.style.background = "rgba(46, 204, 113, 0.2)" ∧
        e.style.borderColor = "#2ecc71"
    else
      e.innerHTML = labelOff ∧ e.style.background = "" ∧ e.style.borderColor = ""

/-- The bolt icon both labels start with. -/
def boltIcon : String := "<i class=\"fas fa-bolt\"></i>"

/-- A small document for evaluation: an unrelated heading and the button, still
carrying markup of its own. -/
def sampleDocument : Document :=
  [⟨"title", "Downloader", ⟨"", ""⟩⟩, ⟨"fastModeBtn", "Fast", ⟨"red", "blue"⟩⟩]

/-- The sample document in a page whose flag is `flag`, nothing shown yet. -/
def samplePage (flag : Bool) : Page :=
  { fastMode := flag, document := sampleDocument, notifications := [] }

/-- A page whose document has no element with the identifier `fastModeBtn`. -/
def orphanPage (flag : Bool) : Page :=
  { fastMode := flag,
    document := [⟨"title", "Downloader", ⟨"", ""⟩⟩],
    notifications := [⟨"pronto", "info"⟩] }

/-- A page as a completed call leaves it: flag true, the button painted ON, one
notification shown. -/
def settledPage : Page :=
  { fastMode := true,
    document := [⟨"fastModeBtn", labelOn, ⟨"rgba(46, 204, 113, 0.2)", "#2ecc71"⟩⟩],
    notifications := [⟨messageOn, "success"⟩] }

/-! ## Lemmas on the host primitives -/

theorem getElementById_lt {doc : Document} {id : String} {i : Nat}
    (h : getElementById doc id = some i) : i < doc.length := by
  induction doc generalizing i with
  | nil => simp [getElementById] at h
  | cons e es ih =>
    by_cases he : e.id = id
    · simp [getElementById, he] at h
      subst h
      simp
    · simp only [getElementById, he, if_false] at h
      cases hg : getElementById es id with
      | none => simp [hg] at h
      | some j =>
        have hj := ih hg
        rw [hg] at h
        simp only [Option.map, Option.some.injEq] at h
        simp only [List.length_cons]
        omega

theorem getElementById_modify (f : Element → Element) (hf : ∀ e, (f e).id = e.id)
    (doc : Document) (i : Nat) (id : String) :
    getElementById (doc.modify f i) id = getElementById doc id := by
  induction doc generalizing i with
  | nil => cases i <;> simp [List.modify, getElementById]
  | cons e es ih =>
    cases i with
    | zero => simp [getElementById, hf]
    | succ j =>
      rw [List.modify_succ_cons]
      simp only [getElementById, ih]

theorem fastModeBtn_eq_some_iff {s : Page} {e : Element} :
    fastModeBtn s = some e ↔
      ∃ i, getElementById s.document "fastModeBtn" = some i ∧ s.document[i]? = some e := by
  unfold fastModeBtn
  cases getElementById s.document "fastModeBtn" <;> simp

theorem Resolvable.exists_button {s : Page} (h : Resolvable s) :
    ∃ e, fastModeBtn s = some e := by
  unfold Resolvable at h
  obtain ⟨i, hi⟩ := Option.ne_none_iff_exists'.mp h
  have hlt := getElementById_lt hi
  exact ⟨s.document[i], fastModeBtn_eq_some_iff.mpr ⟨i, hi, List.getElem?_eq_getElem hlt⟩⟩

theorem resolvable_of_button {s : Page} {e : Element} (h : fastModeBtn s = some e) :
    Resolvable s := by
  obtain ⟨i, hi, _⟩ := fastModeBtn_eq_some_iff.mp h
  simp [Resolvable, hi]

/-! ## Lemmas on `enableFastMode` -/

/-- The first statement always runs: the flag is inverted by every call. -/
theorem enableFastMode_fastMode (s : Page) :
    (enableFastMode s).page.fastMode = !s.fastMode := by
  cases hf : s.fastMode <;> cases hb : getElementById s.document "fastModeBtn" <;>
    simp [enableFastMode, hf, hb, setInnerHTML, setBackground, setBorderColor, showMessage,
      writeProperty, Completion.andThen]

/-- With a `null` handle the call stops at `btn.innerHTML = ...`. -/
theorem enableFastMode_null {s : Page}
    (h : getElementById s.document "fastModeBtn" = none) :
    enableFastMode s
      = ⟨some (.nullDereference "innerHTML"), { s with fastMode := !s.fastMode }⟩ := by
  cases hf : s.fastMode <;>
    simp [enableFastMode, hf, h, setInnerHTML, writeProperty, Completion.andThen]

/-- The ON branch on a page whose button is `e`. -/
theorem enableFastMode_on {s : Page} {e : Element} (hf : s.fastMode = false)
    (hb : fastModeBtn s = some e) :
    (enableFastMode s).error = none ∧
    (enableFastMode s).page.fastMode = true ∧
    fastModeBtn (enableFastMode s).page
      = some ⟨e.id, labelOn, ⟨"rgba(46, 204, 113, 0.2)", "#2ecc71"⟩⟩ ∧
    (enableFastMode s).page.notifications
      = s.notifications ++ [⟨messageOn, "success"⟩] := by
  obtain ⟨i, hi, he⟩ := fastModeBtn_eq_some_iff.mp hb
  refine ⟨?_, ?_, ?_, ?_⟩
  · simp [enableFastMode, hf, hi, setInnerHTML, setBackground, setBorderColor, showMessage,
      writeProperty, Completion.andThen]
  · simp [enableFastMode_fastMode, hf]
  · simp [fastModeBtn, enableFastMode, hf, hi, setInnerHTML, setBackground, setBorderColor,
      showMessage, writeProperty, Completion.andThen, getElementById_modify, he]
  · simp [enableFastMode, hf, hi, setInnerHTML, setBackground, setBorderColor, showMessage,
      writeProperty, Completion.andThen]

/-- The OFF branch on a page whose button is `e`. -/
theorem enableFastMode_off {s : Page} {e : Element} (hf : s.fastMode = true)
    (hb : fastModeBtn s = some e) :
    (enableFastMode s).error = none ∧
    (enableFastMode s).page.fastMode = false ∧
    fastModeBtn (enableFastMode s).page = some ⟨e.id, labelOff, ⟨"", ""⟩⟩ ∧
    (enableFastMode s).page.notifications
      = s.notifications ++ [⟨messageOff, "info"⟩] := by
  obtain ⟨i, hi, he⟩ := fastModeBtn_eq_some_iff.mp hb
  refine ⟨?_, ?_, ?_, ?_⟩
  · simp [enableFastMode, hf, hi, setInnerHTML, setBackground, setBorderColor, showMessage,
      writeProperty, Completion.andThen]
  · simp [enableFastMode_fastMode, hf]
  · simp [fastModeBtn, enableFastMode, hf, hi, setInnerHTML, setBackground, setBorderColor,
      showMessage, writeProperty, Completion.andThen, getElementById_modify, he]
  · simp [enableFastMode, hf, hi, setInnerHTML, setBackground, setBorderColor, showMessage,
      writeProperty, Completion.andThen]

/-- A completed call leaves the button showing the new flag. -/
theorem enableFastMode_consistent {s : Page} (h : Resolvable s) :
    Consistent (enableFastMode s).page := by
  obtain ⟨e, he⟩ := h.exists_button
  cases hf : s.fastMode with
  | false =>
    obtain ⟨_, h2, h3, _⟩ := enableFastMode_on hf he
    exact ⟨_, h3, by simp [h2]⟩
  | true =>
    obtain ⟨_, h2, h3, _⟩ := enableFastMode_off hf he
    exact ⟨_, h3, by simp [h2]⟩

theorem enableFastMode_resolvable {s : Page} (h : Resolvable s) :
    Resolvable (enableFastMode s).page := by
  obtain ⟨e, he, _⟩ := enableFastMode_consistent h
  exact resolvable_of_button he

theorem enableFastMode_error_none {s : Page} (h : Resolvable s) :
    (enableFastMode s).error = none := by
  obtain ⟨e, he⟩ := h.exists_button
  cases hf : s.fastMode with
  | false => exact (enableFastMode_on hf he).1
  | true => exact (enableFastMode_off hf he).1

/-! ## Lemmas on repeated calls -/

theorem calls_fastMode (n : Nat) (s : Page) :
    (calls n s).fastMode = if n % 2 = 0 then s.fastMode else !s.fastMode := by
  induction n with
  | zero => simp [calls]
  | succ k ih =>
    simp only [calls, enableFastMode_fastMode, ih]
    rcases Nat.mod_two_eq_zero_or_one k with h | h
    · have h1 : (k + 1) % 2 = 1 := by omega
      simp [h, h1]
    · have h1 : (k + 1) % 2 = 0 := by omega
      simp [h, h1]

theorem calls_resolvable {s : Page} (h : Resolvable s) (n : Nat) :
    Resolvable (calls n s) := by
  induction n with
  | zero => exact h
  | succ k ih => exact enableFastMode_resolvable ih

theorem calls_two (s : Page) :
    calls 2 s = (enableFastMode (enableFastMode s).page).page := rfl

/-! ## The flag -/

/-- C1: starting from the load-time page (`fastMode = true`) with the button
resolvable, each of `n` consecutive calls of `enableFastMode` completes, and
after them the flag is true if `n` is even and false if `n` is odd. -/
theorem flag_parity_after_calls (doc : Document) (n : Nat)
    (h : Resolvable (initial doc)) :
    (∀ k, k < n → (enableFastMode (calls k (initial doc))).error = none) ∧
    (Even n → (calls n (initial doc)).fastMode = true) ∧
    (Odd n → (calls n (initial doc)).fastMode = false) := by
  refine ⟨fun k _ => enableFastMode_error_none (calls_resolvable h k), ?_, ?_⟩
  · intro hn
    have h0 : n % 2 = 0 := Nat.even_iff.mp hn
    simp [calls_fastMode, h0, initial]
  · intro hn
    have h1 : n % 2 = 1 := Nat.odd_iff.mp hn
    simp [calls_fastMode, h1, initial]

theorem flag_parity_after_calls_witness :
    Resolvable (initial sampleDocument) ∧
    (∀ k, k < 3 → (enableFastMode (calls k (initial sampleDocument))).error = none) ∧
    (Even 3 → (calls 3 (initial sampleDocument)).fastMode = true) ∧
    (Odd 3 → (calls 3 (initial sampleDocument)).fastMode = false) :=
  ⟨by decide, flag_parity_after_calls sampleDocument 3 (by decide)⟩

/-! ## Flag and button agree after a call -/

/-- C5: on every page whose button is resolvable, a call of `enableFastMode`
completes and leaves the button showing the new flag (ON label, green background
and border when `fastMode` is true; OFF label, both overrides empty when it is
false); hence the same holds after any `n ≥ 1` consecutive calls. -/
theorem button_reflects_flag (s : Page) (h : Resolvable s) :
    (enableFastMode s).error = none ∧
    Consistent (enableFastMode s).page ∧
    ∀ n, 1 ≤ n → Consistent (calls n s) := by
  refine ⟨enableFastMode_error_none h, enableFastMode_consistent h, ?_⟩
  intro n hn
  obtain ⟨k, rfl⟩ : ∃ k, n = k + 1 := ⟨n - 1, by omega⟩
  exact enableFastMode_consistent (calls_resolvable h k)

theorem button_reflects_flag_witness :
    Resolvable (samplePage true) ∧
    (enableFastMode (samplePage true)).error = none ∧
    Consistent (enableFastMode (samplePage true)).page ∧
    ∀ n, 1 ≤ n → Consistent (calls n (samplePage true)) :=
  ⟨by decide, button_reflects_flag (samplePage true) (by decide)⟩

/-! ## The unresolvable button -/

/-- C6: for every flag value, if the lookup of `fastModeBtn` yields `null`, the
call of `enableFastMode` throws (at the write of `innerHTML`), and the flag it
leaves is the negation of the flag before the call. -/
theorem lookup_failure_keeps_inverted_flag (s : Page)
    (h : getElementById s.document "fastModeBtn" = none) :
    (enableFastMode s).error = some (.nullDereference "innerHTML") ∧
    (enableFastMode s).page.fastMode = !s.fastMode := by
  rw [enableFastMode_null h]
  exact ⟨rfl, rfl⟩

theorem lookup_failure_keeps_inverted_flag_witness :
    getElementById (orphanPage true).document "fastModeBtn" = none ∧
    (enableFastMode (orphanPage true)).error = some (.nullDereference "innerHTML") ∧
    (enableFastMode (orphanPage true)).page.fastMode = !(orphanPage true).fastMode :=
  ⟨by decide, lookup_failure_keeps_inverted_flag (orphanPage true) (by decide)⟩

/-- C9: for every flag value and every prior state of the elements, a call of
`enableFastMode` on a page whose button is resolvable completes without error;
equivalently, the call throws if and only if the lookup yields `null`. -/
theorem fails_iff_lookup_null (s : Page) :
    (Resolvable s → (enableFastMode s).error = none) ∧
    ((enableFastMode s).error ≠ none ↔
      getElementById s.document "fastModeBtn" = none) := by
  refine ⟨enableFastMode_error_none, ?_, ?_⟩
  · intro hne
    by_contra hb
    exact hne (enableFastMode_error_none hb)
  · intro hb
    rw [enableFastMode_null hb]
    simp

/-- C10: for every flag value, when the lookup of `fastModeBtn` yields `null`
the throwing call shows no notification and writes no element; it stops at the
first property write, and the page it leaves differs from the page before only
in the inverted flag. -/
theorem lookup_failure_changes_only_flag (s : Page)
    (h : getElementById s.document "fastModeBtn" = none) :
    (enableFastMode s).error = some (.nullDereference "innerHTML") ∧
    (enableFastMode s).page.notifications = s.notifications ∧
    (enableFastMode s).page.document = s.document ∧
    (enableFastMode s).page = { s with fastMode := !s.fastMode } := by
  rw [enableFastMode_null h]
  exact ⟨rfl, rfl, rfl, rfl⟩

theorem lookup_failure_changes_only_flag_witness :
    getElementById (orphanPage false).document "fastModeBtn" = none ∧
    (enableFastMode (orphanPage false)).error = some (.nullDereference "innerHTML") ∧
    (enableFastMode (orphanPage false)).page.notifications = (orphanPage false).notifications ∧
    (enableFastMode (orphanPage false)).page.document = (orphanPage false).document ∧
    (enableFastMode (orphanPage false)).page
      = { orphanPage false with fastMode := !(orphanPage false).fastMode } :=
  ⟨by decide, lookup_failure_changes_only_flag (orphanPage false) (by decide)⟩

/-! ## Facts about the literals -/

theorem labelOn_contains : "Modo Rápido (ON)".data <:+: labelOn.data := by decide

theorem labelOff_contains : "Modo Rápido (OFF)".data <:+: labelOff.data := by decide

theorem labelOn_eq : labelOn = boltIcon ++ " Modo Rápido (ON)" := by decide

theorem labelOff_eq : labelOff = boltIcon ++ " Modo Rápido (OFF)" := by decide

/-! ## The scenarios from the load-time page -/

/-- C2 as stated fails: on the load-time page of the sample document the first
call of `enableFastMode` leaves the OFF label, both style overrides empty and an
"info" notification, so no button and notification with the ON label, the green
background and border and severity "success" come out of it. -/
theorem scenarioA_counterexample :
    Resolvable (initial sampleDocument) ∧
    fastModeBtn (enableFastMode (initial sampleDocument)).page
      = some ⟨"fastModeBtn", labelOff, ⟨"", ""⟩⟩ ∧
    (enableFastMode (initial sampleDocument)).page.notifications
      = [⟨messageOff, "info"⟩] ∧
    ¬ ("Modo Rápido (ON)".data <:+: labelOff.data) ∧
    ¬ ∃ e n, fastModeBtn (enableFastMode (initial sampleDocument)).page = some e ∧
        (enableFastMode (initial sampleDocument)).page.notifications
          = (initial sampleDocument).notifications ++ [n] ∧
        "Modo Rápido (ON)".data <:+: e.innerHTML.data ∧
        e.style.background = "rgba(46, 204, 113, 0.2)" ∧
        e.style.borderColor = "#2ecc71" ∧
        n.severity = "success" := by
  refine ⟨by decide, by decide, by decide, by decide, ?_⟩
  rintro ⟨e, n, he, -, -, hbg, -, -⟩
  have hb : fastModeBtn (enableFastMode (initial sampleDocument)).page
      = some ⟨"fastModeBtn", labelOff, ⟨"", ""⟩⟩ := by decide
  rw [hb] at he
  cases he
  revert hbg
  decide

/-- C2, amended: starting from the load-time page (`fastMode = true`) with the
button resolvable, a single call of `enableFastMode` leaves the button label
containing "Modo Rápido (OFF)", the background and the border colour both the
empty string, and shows one notification, whose severity is "info". -/
theorem scenarioA_first_call_turns_off (doc : Document) (h : Resolvable (initial doc)) :
    ∃ e n, fastModeBtn (enableFastMode (initial doc)).page = some e ∧
      (enableFastMode (initial doc)).page.notifications
        = (initial doc).notifications ++ [n] ∧
      "Modo Rápido (OFF)".data <:+: e.innerHTML.data ∧
      e.style.background = "" ∧
      e.style.borderColor = "" ∧
      n.severity = "info" := by
  obtain ⟨b, hb⟩ := h.exists_button
  obtain ⟨_, _, h3, h4⟩ := enableFastMode_off (s := initial doc) rfl hb
  exact ⟨_, _, h3, h4, labelOff_contains, rfl, rfl, rfl⟩

theorem scenarioA_first_call_turns_off_witness :
    Resolvable (initial sampleDocument) ∧
    ∃ e n, fastModeBtn (enableFastMode (initial sampleDocument)).page = some e ∧
      (enableFastMode (initial sampleDocument)).page.notifications
        = (initial sampleDocument).notifications ++ [n] ∧
      "Modo Rápido (OFF)".data <:+: e.innerHTML.data ∧
      e.style.background = "" ∧
      e.style.borderColor = "" ∧
      n.severity = "info" :=
  ⟨by decide, scenarioA_first_call_turns_off sampleDocument (by decide)⟩

/-- C3 as stated fails: on the load-time page of the sample document the second
call of `enableFastMode` leaves the ON label, the green background and border
and a "success" notification, so no button and notification with the OFF label,
empty overrides and severity "info" come out of it. -/
theorem scenarioB_counterexample :
    Resolvable (initial sampleDocument) ∧
    fastModeBtn (calls 2 (initial sampleDocument))
      = some ⟨"fastModeBtn", labelOn, ⟨"rgba(46, 204, 113, 0.2)", "#2ecc71"⟩⟩ ∧
    (calls 2 (initial sampleDocument)).notifications
      = (calls 1 (initial sampleDocument)).notifications ++ [⟨messageOn, "success"⟩] ∧
    ¬ ("Modo Rápido (OFF)".data <:+: labelOn.data) ∧
    ¬ ∃ e n, fastModeBtn (calls 2 (initial sampleDocument)) = some e ∧
        (calls 2 (initial sampleDocument)).notifications
          = (calls 1 (initial sampleDocument)).notifications ++ [n] ∧
        "Modo Rápido (OFF)".data <:+: e.innerHTML.data ∧
        e.style.background = "" ∧
        e.style.borderColor = "" ∧
        n.severity = "info" := by
  refine ⟨by decide, by decide, by decide, by decide, ?_⟩
  rintro ⟨e, n, he, -, -, hbg, -, -⟩
  have hb : fastModeBtn (calls 2 (initial sampleDocument))
      = some ⟨"fastModeBtn", labelOn, ⟨"rgba(46, 204, 113, 0.2)", "#2ecc71"⟩⟩ := by decide
  rw [hb] at he
  cases he
  revert hbg
  decide

/-- C3, amended: starting from the load-time page (`fastMode = true`) with the
button resolvable, after two consecutive calls of `enableFastMode` the button
label contains "Modo Rápido (ON)", the background is `rgba(46, 204, 113, 0.2)`,
the border colour is `#2ecc71`, and the one notification the second call shows
has severity "success". -/
theorem scenarioB_second_call_turns_on (doc : Document) (h : Resolvable (initial doc)) :
    ∃ e n, fastModeBtn (calls 2 (initial doc)) = some e ∧
      (calls 2 (initial doc)).notifications
        = (calls 1 (initial doc)).notifications ++ [n] ∧
      "Modo Rápido (ON)".data <:+: e.innerHTML.data ∧
      e.style.background = "rgba(46, 204, 113, 0.2)" ∧
      e.style.borderColor = "#2ecc71" ∧
      n.severity = "success" := by
  obtain ⟨b, hb⟩ := h.exists_button
  obtain ⟨_, h2, h3, _⟩ := enableFastMode_off (s := initial doc) rfl hb
  obtain ⟨_, _, k3, k4⟩ := enableFastMode_on h2 h3
  exact ⟨_, _, k3, k4, labelOn_contains, rfl, rfl, rfl⟩

theorem scenarioB_second_call_turns_on_witness :
    Resolvable (initial sampleDocument) ∧
    ∃ e n, fastModeBtn (calls 2 (initial sampleDocument)) = some e ∧
      (calls 2 (initial sampleDocument)).notifications
        = (calls 1 (initial sampleDocument)).notifications ++ [n] ∧
      "Modo Rápido (ON)".data <:+: e.innerHTML.data ∧
      e.style.background = "rgba(46, 204, 113, 0.2)" ∧
      e.style.borderColor = "#2ecc71" ∧
      n.severity = "success" :=
  ⟨by decide, scenarioB_second_call_turns_on sampleDocument (by decide)⟩

/-! ## Two calls in a row -/

/-- C4 as stated fails: the button of the sample page carries the label "Fast"
on a red background with a blue border; after two calls it carries the ON label
on the green background with the green border, none of which is the value it
had before the first call. -/
theorem round_trip_counterexample :
    Resolvable (samplePage true) ∧
    fastModeBtn (samplePage true) = some ⟨"fastModeBtn", "Fast", ⟨"red", "blue"⟩⟩ ∧
    fastModeBtn (calls 2 (samplePage true))
      = some ⟨"fastModeBtn", labelOn, ⟨"rgba(46, 204, 113, 0.2)", "#2ecc71"⟩⟩ ∧
    ¬ ∃ b a, fastModeBtn (samplePage true) = some b ∧
        fastModeBtn (calls 2 (samplePage true)) = some a ∧
        a.innerHTML = b.innerHTML ∧
        a.style.background = b.style.background ∧
        a.style.borderColor = b.style.borderColor := by
  refine ⟨by decide, by decide, by decide, ?_⟩
  rintro ⟨b, a, hb, ha, -, hbg, -⟩
  have h0 : fastModeBtn (samplePage true)
      = some ⟨"fastModeBtn", "Fast", ⟨"red", "blue"⟩⟩ := by decide
  have h2 : fastModeBtn (calls 2 (samplePage true))
      = some ⟨"fastModeBtn", labelOn, ⟨"rgba(46, 204, 113, 0.2)", "#2ecc71"⟩⟩ := by decide
  rw [h0] at hb
  rw [h2] at ha
  cases hb
  cases ha
  revert hbg
  decide

/-- C4, amended: for every starting page whose button is resolvable and already
shows the flag (as after any completed call), two consecutive calls of
`enableFastMode` both complete and leave the label, the background and the
border colour of the button equal to the values they had before the first
call. -/
theorem round_trip_from_consistent (s : Page) (h : Consistent s) :
    (enableFastMode s).error = none ∧
    (enableFastMode (enableFastMode s).page).error = none ∧
    ∃ b a, fastModeBtn s = some b ∧
      fastModeBtn (calls 2 s) = some a ∧
      a.innerHTML = b.innerHTML ∧
      a.style.background = b.style.background ∧
      a.style.borderColor = b.style.borderColor := by
  obtain ⟨b, hb, hc⟩ := h
  rw [calls_two]
  cases hf : s.fastMode with
  | true =>
    simp only [hf, if_true] at hc
    obtain ⟨h1, h2, h3, _⟩ := enableFastMode_off hf hb
    obtain ⟨k1, _, k3, _⟩ := enableFastMode_on h2 h3
    exact ⟨h1, k1, b, _, hb, k3, hc.1.symm, hc.2.1.symm, hc.2.2.symm⟩
  | false =>
    simp only [hf] at hc
    obtain ⟨h1, h2, h3, _⟩ := enableFastMode_on hf hb
    obtain ⟨k1, _, k3, _⟩ := enableFastMode_off h2 h3
    exact ⟨h1, k1, b, _, hb, k3, hc.1.symm, hc.2.1.symm, hc.2.2.symm⟩

theorem round_trip_from_consistent_witness :
    Consistent settledPage ∧
    (enableFastMode settledPage).error = none ∧
    (enableFastMode (enableFastMode settledPage).page).error = none ∧
    ∃ b a, fastModeBtn settledPage = some b ∧
      fastModeBtn (calls 2 settledPage) = some a ∧
      a.innerHTML = b.innerHTML ∧
      a.style.background = b.style.background ∧
      a.style.borderColor = b.style.borderColor :=
  ⟨⟨⟨"fastModeBtn", labelOn, ⟨"rgba(46, 204, 113, 0.2)", "#2ecc71"⟩⟩, by decide, by decide⟩,
    round_trip_from_consistent settledPage
      ⟨⟨"fastModeBtn", labelOn, ⟨"rgba(46, 204, 113, 0.2)", "#2ecc71"⟩⟩, by decide, by decide⟩⟩

/-! ## The two branches -/

/-- C7 as stated fails: from the sample page with `fastMode = false` the call
shows the message of script.js line 10, which is not the text "✅ Fast Mode:
using optimized formats for the deployment target". -/
theorem on_branch_counterexample :
    (samplePage false).fastMode = false ∧
    Resolvable (samplePage false) ∧
    (enableFastMode (samplePage false)).page.notifications
      = (samplePage false).notifications
        ++ [⟨"✅ Modo Rápido: Usando formatos otimizados para Vercel", "success"⟩] ∧
    (enableFastMode (samplePage false)).page.notifications
      ≠ (samplePage false).notifications
        ++ [⟨"✅ Fast Mode: using optimized formats for the deployment target", "success"⟩] := by
  refine ⟨by decide, by decide, by decide, by decide⟩

/-- C7, amended: for every starting page with `fastMode = false` and the button
resolvable, `enableFastMode` completes, sets the flag to true, sets the label of
the button to the bolt-icon template " Modo Rápido (ON)", the background to
`rgba(46, 204, 113, 0.2)` and the border colour to `#2ecc71`, and shows exactly
one notification, with message "✅ Modo Rápido: Usando formatos otimizados para
Vercel" and severity "success". -/
theorem on_branch (s : Page) (hf : s.fastMode = false) (h : Resolvable s) :
    (enableFastMode s).error = none ∧
    (enableFastMode s).page.fastMode = true ∧
    (∃ e, fastModeBtn (enableFastMode s).page = some e ∧
      e.innerHTML = boltIcon ++ " Modo Rápido (ON)" ∧
      e.style.background = "rgba(46, 204, 113, 0.2)" ∧
      e.style.borderColor = "#2ecc71") ∧
    (enableFastMode s).page.notifications
      = s.notifications
        ++ [⟨"✅ Modo Rápido: Usando formatos otimizados para Vercel", "success"⟩] := by
  obtain ⟨b, hb⟩ := h.exists_button
  obtain ⟨h1, h2, h3, h4⟩ := enableFastMode_on hf hb
  exact ⟨h1, h2, ⟨_, h3, labelOn_eq, rfl, rfl⟩, h4⟩

theorem on_branch_witness :
    (samplePage false).fastMode = false ∧
    Resolvable (samplePage false) ∧
    (enableFastMode (samplePage false)).error = none ∧
    (enableFastMode (samplePage false)).page.fastMode = true ∧
    (∃ e, fastModeBtn (enableFastMode (samplePage false)).page = some e ∧
      e.innerHTML = boltIcon ++ " Modo Rápido (ON)" ∧
      e.style.background = "rgba(46, 204, 113, 0.2)" ∧
      e.style.borderColor = "#2ecc71") ∧
    (enableFastMode (samplePage false)).page.notifications
      = (samplePage false).notifications
        ++ [⟨"✅ Modo Rápido: Usando formatos otimizados para Vercel", "success"⟩] :=
  ⟨by decide, by decide, on_branch (samplePage false) (by decide) (by decide)⟩

/-- C8 as stated fails: from the sample page with `fastMode = true` the call
shows the message of script.js line 15, which is not the text "ℹ️ Normal Mode:
may be slower on the deployment target". -/
theorem off_branch_counterexample :
    (samplePage true).fastMode = true ∧
    Resolvable (samplePage true) ∧
    (enableFastMode (samplePage true)).page.notifications
      = (samplePage true).notifications
        ++ [⟨"ℹ️ Modo Normal: Pode ser mais lento na Vercel", "info"⟩] ∧
    (enableFastMode (samplePage true)).page.notifications
      ≠ (samplePage true).notifications
        ++ [⟨"ℹ️ Normal Mode: may be slower on the deployment target", "info"⟩] := by
  refine ⟨by decide, by decide, by decide, by decide⟩

/-- C8, amended: for every starting page with `fastMode = true` and the button
resolvable, `enableFastMode` completes, sets the flag to false, sets the label
of the button to the bolt-icon template " Modo Rápido (OFF)" (the icon the ON
label starts with), clears the background and border colour overrides to the
empty string, and shows exactly one notification, with message "ℹ️ Modo Normal:
Pode ser mais lento na Vercel" and severity "info". -/
theorem off_branch (s : Page) (hf : s.fastMode = true) (h : Resolvable s) :
    (enableFastMode s).error = none ∧
    (enableFastMode s).page.fastMode = false ∧
    (∃ e, fastModeBtn (enableFastMode s).page = some e ∧
      e.innerHTML = boltIcon ++ " Modo Rápido (OFF)" ∧
      e.style.background = "" ∧
      e.style.borderColor = "") ∧
    labelOn = boltIcon ++ " Modo Rápido (ON)" ∧
    (enableFastMode s).page.notifications
      = s.notifications ++ [⟨"ℹ️ Modo Normal: Pode ser mais lento na Vercel", "info"⟩] := by
  obtain ⟨b, hb⟩ := h.exists_button
  obtain ⟨h1, h2, h3, h4⟩ := enableFastMode_off hf hb
  exact ⟨h1, h2, ⟨_, h3, labelOff_eq, rfl, rfl⟩, labelOn_eq, h4⟩

theorem off_branch_witness :
    (samplePage true).fastMode = true ∧
    Resolvable (samplePage true) ∧
    (enableFastMode (samplePage true)).error = none ∧
    (enableFastMode (samplePage true)).page.fastMode = false ∧
    (∃ e, fastModeBtn (enableFastMode (samplePage true)).page = some e ∧
      e.innerHTML = boltIcon ++ " Modo Rápido (OFF)" ∧
      e.style.background = "" ∧
      e.style.borderColor = "") ∧
    labelOn = boltIcon ++ " Modo Rápido (ON)" ∧
    (enableFastMode (samplePage true)).page.notifications
      = (samplePage true).notifications
        ++ [⟨"ℹ️ Modo Normal: Pode ser mais lento na Vercel", "info"⟩] :=
  ⟨by decide, by decide, off_branch (samplePage true) (by decide) (by decide)⟩

end FastMode
